import Mathlib

/-!
Verification development for the `llm_code` command-line coding assistant.

The orchestrator (`src/llm_code/llm_code.py`) is embedded shallowly below:
`runMain` mirrors `main`, `load_templates` and the initdb events mirror the
module-level helpers. The repository's `templates.py` and `db.py` modules are
not part of the source tree; the definitions that stand in for them are
modelled from the specification (sections 3, 4.1, 4.2 and 4.3) and are marked
as such in their doc comments.
-/

deriving instance DecidableEq for Except

/-- Role of a chat message (`system`, `user`, `assistant`), spec section 3. -/
inductive Role where
  | system
  | user
  | assistant
deriving DecidableEq

/-- Message, a role-tagged text unit: one turn of the chat exchange. -/
structure Message where
  role : Role
  content : String
deriving DecidableEq

/-- Modelled from the spec: template bodies live in `templates.py`, which is
not in `src/`. Spec section 3 describes a body as "text with named
placeholders"; a body is embedded as an alternating sequence of literal
chunks and placeholder chunks. -/
inductive Chunk where
  | lit (s : String)
  | var (v : String)
deriving DecidableEq

/-- Template errors of spec section 7: `TemplateNotFound` and
`MissingVariable`, both fatal for the current exchange. -/
inductive TmplError where
  | templateNotFound (name : String)
  | missingVariable (name : String)
deriving DecidableEq

/-- Modelled from the spec: a Template (section 3) is an immutable named
prompt fragment with a role and a body with named placeholders. -/
structure Template where
  name : String
  role : Role
  body : List Chunk
deriving DecidableEq

/-- Modelled from the spec: a TemplateLibrary (section 3) is a collection of
Templates indexed by hierarchical name. -/
structure TemplateLibrary where
  templates : List Template
deriving DecidableEq

/-- Substitution lookup: first binding of the variable in the keyword list. -/
def subLookup (subs : List (String × String)) (v : String) : Option String :=
  match subs with
  | [] => none
  | p :: rest => if p.1 = v then some p.2 else subLookup rest v

/-- Modelled from the spec: rendering is pure text substitution (section
4.1); every placeholder of the body must be supplied or rendering fails with
`MissingVariable`; extra substitutions are ignored. -/
def renderChunks (body : List Chunk) (subs : List (String × String)) : Except TmplError String :=
  match body with
  | [] => Except.ok ""
  | Chunk.lit s :: rest =>
    match renderChunks rest subs with
    | Except.error err => Except.error err
    | Except.ok r => Except.ok (s ++ r)
  | Chunk.var v :: rest =>
    match subLookup subs v with
    | none => Except.error (TmplError.missingVariable v)
    | some x =>
      match renderChunks rest subs with
      | Except.error err => Except.error err
      | Except.ok r => Except.ok (x ++ r)

/-- Modelled from the spec: `Template.render` (section 4.1) produces a
Message carrying the template's role and the substituted body. This stands
for the `.message(**kwargs)` calls of `main` (llm_code.py lines 79-83). -/
def Template.message (t : Template) (subs : List (String × String)) : Except TmplError Message :=
  match renderChunks t.body subs with
  | Except.error err => Except.error err
  | Except.ok s => Except.ok ⟨t.role, s⟩

/-- Modelled from the spec: exact-match lookup in a library (section 4.1),
standing for `library["name"]` in `main`. -/
def TemplateLibrary.find (lib : TemplateLibrary) (name : String) : Option Template :=
  lib.templates.find? (fun t => t.name = name)

/-- Filesystem view of one candidate template root: whether its `prompts`
subdirectory exists, and the templates that parsing that subdirectory would
yield. -/
structure RootFS where
  promptsExists : Bool
  parsedTemplates : List Template
deriving DecidableEq

/-- Modelled from the spec: `TemplateLibrary.from_file_or_directory`
(templates.py, not in `src/`) parses every contained template definition into
a Template (section 4.1). -/
def TemplateLibrary.from_file_or_directory (fs : RootFS) : TemplateLibrary :=
  ⟨fs.parsedTemplates⟩

/-- Embedding of `load_templates` (llm_code.py lines 28-33): if the root's
`prompts` subdirectory exists, load a library from it, else return none. -/
def load_templates (root : RootFS) : Option TemplateLibrary :=
  if root.promptsExists then some (TemplateLibrary.from_file_or_directory root) else none

/-- Modelled from the spec: Python truthiness of the optional library used by
`main` line 69 (`load_templates(...) or load_templates(...)`) and line 72
(`if not library`). Per spec section 4.1 a library counts only if its root
"yields any template", so an empty library is falsy. -/
def libTruthy : Option TemplateLibrary → Bool
  | none => false
  | some l => !l.templates.isEmpty

/-- Python's `a or b` on optional libraries (llm_code.py line 69). -/
def pyOr (a b : Option TemplateLibrary) : Option TemplateLibrary :=
  if libTruthy a then a else b

/-- Template-root selection of `main` lines 69-71: user config directory
first, then the package-adjacent directory. -/
def selectLibrary (cfg pkg : RootFS) : Option TemplateLibrary :=
  pyOr (load_templates cfg) (load_templates pkg)

/-- Python's `sep.join(xs)` as used at llm_code.py lines 65 and 76. -/
def pyJoin (sep : String) : List String → String
  | [] => ""
  | [s] => s
  | s :: s2 :: rest => s ++ sep ++ pyJoin sep (s2 :: rest)

/-- CodeBlock of spec section 3: a language tag and the fenced text. -/
structure CodeBlock where
  lang : String
  code : String
deriving DecidableEq

/-- Character-level line splitter (accumulator holds the current line,
reversed). -/
def splitLinesCh (acc : List Char) : List Char → List (List Char)
  | [] => [acc.reverse]
  | c :: cs => if c = '\n' then acc.reverse :: splitLinesCh [] cs else splitLinesCh (c :: acc) cs

/-- Lines of a string, split at newline characters. -/
def splitLines (s : String) : List String :=
  (splitLinesCh [] s.data).map String.mk

/-- Whether a line starts with the triple-backtick fence marker. -/
def isFence (l : String) : Bool :=
  decide (l.data.take 3 = "```".data)

/-- Language tag of an opening fence line: everything after the marker. -/
def langOf (l : String) : String :=
  String.mk (l.data.drop 3)

/-- First opening fence line: its language tag and the remaining lines. -/
def findFence : List String → Option (String × List String)
  | [] => none
  | l :: ls => if isFence l then some (langOf l, ls) else findFence ls

/-- Lines strictly before the first closing fence marker (a line that is
exactly the marker); none if no closing marker follows. -/
def takeUntilClose : List String → Option (List String)
  | [] => none
  | l :: ls =>
    if l = "```" then some []
    else
      match takeUntilClose ls with
      | none => none
      | some inner => some (l :: inner)

/-- Modelled from the spec: `Message.code` lives in templates.py, which is
not in `src/`. Spec section 4.2: scan the content for the first fenced code
block, delimited by a triple-backtick marker at line start, the opening
marker optionally followed immediately by a language tag and the closing
marker on its own line; return the language tag and the text between the
markers with a single trailing newline stripped; absence of any fenced block
is a valid non-error outcome, and an opening marker with no closing marker
yields absence. -/
def Message.code (m : Message) : Option CodeBlock :=
  match findFence (splitLines m.content) with
  | none => none
  | some (lang, rest) =>
    match takeUntilClose rest with
    | none => none
    | some inner => some ⟨lang, pyJoin "\n" inner⟩

/-- Modelled from the spec: `Message.from_message` (templates.py, not in
`src/`) wraps the raw API reply into a Message with no transformation of
content (spec section 4.2). -/
def Message.from_message (r : Role) (c : String) : Message :=
  ⟨r, c⟩

/-- Token usage counts reported by the remote API. -/
structure Usage where
  prompt_tokens : Nat
  completion_tokens : Nat
deriving DecidableEq

/-- Reply of the remote API: the generated message and the usage counts. -/
structure ApiResponse where
  role : Role
  content : String
  usage : Usage
deriving DecidableEq

/-- Persisted Record of spec section 3, with the fields passed to `db.write`
at llm_code.py lines 96-105. -/
structure Record where
  model : String
  temperature : Rat
  max_tokens : Nat
  system_message : String
  user_message : String
  assistant_message : String
  input_tokens : Nat
  output_tokens : Nat
deriving DecidableEq

/-- Observable side effects of one invocation, in program order. -/
inductive Event where
  | mkdirParents (path : String)
  | openDb (path : String)
  | loadAttempt
  | apiCall (msgs : List Message)
  | dbWrite (r : Record)
  | printCode (cb : CodeBlock) (lineNumbers : Bool)
  | printOut (s : String)
deriving DecidableEq

/-- Terminal outcome of one invocation. -/
inductive Outcome where
  | versionShown
  | usageError (msg : String)
  | templateError (err : TmplError)
  | apiFailure
  | dbFailure
  | codeShown (cb : CodeBlock)
  | noCodeFound (content : String)
deriving DecidableEq

/-- Process exit status per outcome: falling off the end of `main` exits 0,
`sys.exit(1)` on the no-code path, `click.UsageError` exits 2, an uncaught
exception (template, API or database failure) exits 1. -/
def exitCode : Outcome → Nat
  | Outcome.versionShown => 0
  | Outcome.usageError _ => 2
  | Outcome.templateError _ => 1
  | Outcome.apiFailure => 1
  | Outcome.dbFailure => 1
  | Outcome.codeShown _ => 0
  | Outcome.noCodeFound _ => 1

/-- Result of one invocation: the event trace and the terminal outcome. -/
structure RunResult where
  events : List Event
  outcome : Outcome
deriving DecidableEq

/-- Messages of the first API call in a trace, if any call was made. -/
def sentMessages : List Event → Option (List Message)
  | [] => none
  | Event.mkdirParents _ :: es => sentMessages es
  | Event.openDb _ :: es => sentMessages es
  | Event.loadAttempt :: es => sentMessages es
  | Event.apiCall msgs :: _ => some msgs
  | Event.dbWrite _ :: es => sentMessages es
  | Event.printCode _ _ :: es => sentMessages es
  | Event.printOut _ :: es => sentMessages es

/-- Records persisted during a trace, in order. -/
def writtenRecords : List Event → List Record
  | [] => []
  | Event.mkdirParents _ :: es => writtenRecords es
  | Event.openDb _ :: es => writtenRecords es
  | Event.loadAttempt :: es => writtenRecords es
  | Event.apiCall _ :: es => writtenRecords es
  | Event.dbWrite r :: es => r :: writtenRecords es
  | Event.printCode _ _ :: es => writtenRecords es
  | Event.printOut _ :: es => writtenRecords es

/-- Fallback message of llm_code.py line 111. -/
def noCodeMsg (content : String) : String :=
  "No code found in message: \n\n" ++ content

/-- Version banner of llm_code.py line 56. -/
def versionBanner : String :=
  "[bold green]llm_code[/] version 0.4.0"

/-- Environment of one invocation: command-line flags and arguments, settings
(llm_code.py lines 16-25), the filesystem view of the two template roots, the
contents of the glob-matched input files in glob order, the remote API's
behaviour and whether the database write succeeds. -/
structure Env where
  versionFlag : Bool
  lineNumbers : Bool
  instructionsArgs : List String
  inputsOpt : Option (List String)
  apiKey : String
  model : String
  temperature : Rat
  maxTokens : Nat
  configDir : String
  configRoot : RootFS
  pkgRoot : RootFS
  api : Except Unit ApiResponse
  dbWriteOk : Bool

/-- User-message construction of `main` lines 78-81: the `coding/input`
template with `code` and `instructions` substitutions when the joined input
is non-empty, else the `coding/simple` template with only `instructions`. -/
def buildUserMessage (library : TemplateLibrary) (input instructions : String) :
    Except TmplError Message :=
  if input ≠ "" then
    match library.find "coding/input" with
    | none => Except.error (TmplError.templateNotFound "coding/input")
    | some t => t.message [("code", input), ("instructions", instructions)]
  else
    match library.find "coding/simple" with
    | none => Except.error (TmplError.templateNotFound "coding/simple")
    | some t => t.message [("instructions", instructions)]

/-- Message-list construction of `main` line 83: the user message is built
first (lines 78-81), then `coding/system` is rendered with no substitutions;
the pair is (system message, user message). -/
def buildMessages (library : TemplateLibrary) (input instructions : String) :
    Except TmplError (Message × Message) :=
  match buildUserMessage library input instructions with
  | Except.error err => Except.error err
  | Except.ok um =>
    match library.find "coding/system" with
    | none => Except.error (TmplError.templateNotFound "coding/system")
    | some t =>
      match t.message [] with
      | Except.error err => Except.error err
      | Except.ok sm => Except.ok (sm, um)

/-- Record built by `db.write` at llm_code.py lines 96-105. -/
def mkRecord (e : Env) (sm um assistant : Message) (u : Usage) : Record :=
  ⟨e.model, e.temperature, e.maxTokens, sm.content, um.content, assistant.content,
    u.prompt_tokens, u.completion_tokens⟩

/-- Exchange phase of `main` lines 85-112: call the API with the two
messages; on success wrap the reply, persist the record, then extract and
print the code or print the fallback and exit 1. A raising API call or a
failing database write aborts with no further events. -/
def exchange (e : Env) (sm um : Message) (ev : List Event) : RunResult :=
  let msgs := [sm, um]
  let ev2 := ev ++ [Event.apiCall msgs]
  match e.api with
  | Except.error _ => ⟨ev2, Outcome.apiFailure⟩
  | Except.ok resp =>
    let assistant := Message.from_message resp.role resp.content
    let r := mkRecord e sm um assistant resp.usage
    if e.dbWriteOk then
      let ev3 := ev2 ++ [Event.dbWrite r]
      match assistant.code with
      | some cb => ⟨ev3 ++ [Event.printCode cb e.lineNumbers], Outcome.codeShown cb⟩
      | none => ⟨ev3 ++ [Event.printOut (noCodeMsg assistant.content)],
          Outcome.noCodeFound assistant.content⟩
    else ⟨ev2, Outcome.dbFailure⟩

/-- Phase of `main` after the library is selected (lines 75-112): join the
glob-matched file contents with blank lines, build the two messages, then run
the exchange. -/
def withLibrary (e : Env) (library : TemplateLibrary) (instructions : String)
    (ev : List Event) : RunResult :=
  let inputFiles := e.inputsOpt.getD []
  let input := pyJoin "\n\n" inputFiles
  match buildMessages library input instructions with
  | Except.error err => ⟨ev, Outcome.templateError err⟩
  | Except.ok (sm, um) => exchange e sm um ev

/-- Embedding of `main` (llm_code.py lines 47-112): version flag short
circuit; `initdb` (lines 36-39: create the config directory with parents,
open or create the sqlite store at `config_dir/db.sqlite`); credential check;
instructions check; template-library selection with the "No templates found"
error; then the message-building and exchange phases. -/
def runMain (e : Env) : RunResult :=
  if e.versionFlag then ⟨[Event.printOut versionBanner], Outcome.versionShown⟩
  else
    let ev := [Event.mkdirParents e.configDir, Event.openDb (e.configDir ++ "/db.sqlite")]
    if e.apiKey = "" then ⟨ev, Outcome.usageError "OPENAI_API_KEY must be set."⟩
    else
      let instructions := pyJoin " " e.instructionsArgs
      if instructions = "" then ⟨ev, Outcome.usageError "Please provide some instructions."⟩
      else
        let ev2 := ev ++ [Event.loadAttempt]
        match selectLibrary e.configRoot e.pkgRoot with
        | none => ⟨ev2, Outcome.usageError "No templates found."⟩
        | some library =>
          if library.templates.isEmpty then ⟨ev2, Outcome.usageError "No templates found."⟩
          else withLibrary e library instructions ev2

/-- Example system template used in concrete runs. -/
def tplSystem : Template :=
  ⟨"coding/system", Role.system, [Chunk.lit "You are a coding assistant."]⟩

/-- Example simple-instruction template used in concrete runs. -/
def tplSimple : Template :=
  ⟨"coding/simple", Role.user, [Chunk.lit "Do: ", Chunk.var "instructions"]⟩

/-- Example input template used in concrete runs. -/
def tplInput : Template :=
  ⟨"coding/input", Role.user,
    [Chunk.lit "Code: ", Chunk.var "code", Chunk.lit " Task: ", Chunk.var "instructions"]⟩

/-- Library holding the three example templates. -/
def libFull : TemplateLibrary := ⟨[tplSystem, tplSimple, tplInput]⟩

/-- Root whose prompts directory exists and yields the three templates. -/
def rootFull : RootFS := ⟨true, [tplSystem, tplSimple, tplInput]⟩

/-- Root with no prompts directory. -/
def rootMissing : RootFS := ⟨false, []⟩

/-- API reply containing a fenced python block. -/
def respCode : ApiResponse := ⟨Role.assistant, "Here:\n```python\nprint(1)\n```", ⟨10, 5⟩⟩

/-- API reply containing no fenced block. -/
def respPlain : ApiResponse := ⟨Role.assistant, "I cannot help.", ⟨3, 2⟩⟩

/-- Baseline environment: no version flag, key set, instructions given, no
input files, config root full, package root missing, API succeeds with a code
reply, database write succeeds. -/
def envBase : Env :=
  ⟨false, false, ["write", "hello"], none, "sk-key", "gpt-3.5-turbo", 1, 1000,
    "/home/user/.llm_code", rootFull, rootMissing, Except.ok respCode, true⟩

/-- Environment whose API reply has no fenced code block. -/
def envNoCode : Env :=
  ⟨false, false, ["write", "hello"], none, "sk-key", "gpt-3.5-turbo", 1, 1000,
    "/home/user/.llm_code", rootFull, rootMissing, Except.ok respPlain, true⟩

/-- Environment whose API call raises. -/
def envApiFail : Env :=
  ⟨false, false, ["write", "hello"], none, "sk-key", "gpt-3.5-turbo", 1, 1000,
    "/home/user/.llm_code", rootFull, rootMissing, Except.error (), true⟩

/-- Environment whose database write fails after a successful API call. -/
def envDbFail : Env :=
  ⟨false, false, ["write", "hello"], none, "sk-key", "gpt-3.5-turbo", 1, 1000,
    "/home/user/.llm_code", rootFull, rootMissing, Except.ok respCode, false⟩

/-- Environment with the credential absent. -/
def envNoKey : Env :=
  ⟨false, false, ["write", "hello"], none, "", "gpt-3.5-turbo", 1, 1000,
    "/home/user/.llm_code", rootFull, rootMissing, Except.ok respCode, true⟩

/-- Environment whose glob matches two files, both empty. -/
def envTwoEmpty : Env :=
  ⟨false, false, ["write", "hello"], some ["", ""], "sk-key", "gpt-3.5-turbo", 1, 1000,
    "/home/user/.llm_code", rootFull, rootMissing, Except.ok respCode, true⟩

theorem mk_data_eq (s : String) : String.mk s.data = s := by
  cases s
  rfl

theorem isFence_open (lang : String) : isFence ("```" ++ lang) = true := by
  unfold isFence
  rw [String.data_append]
  have h3 : ("```".data).length = 3 := rfl
  rw [← h3, List.take_left]
  simp

theorem langOf_open (lang : String) : langOf ("```" ++ lang) = lang := by
  unfold langOf
  rw [String.data_append]
  have h3 : ("```".data).length = 3 := rfl
  rw [← h3, List.drop_left, mk_data_eq]

theorem findFence_append (pre ls : List String) (hpre : ∀ l ∈ pre, isFence l = false) :
    findFence (pre ++ ls) = findFence ls := by
  induction pre with
  | nil => rfl
  | cons a t ih =>
    have ha := hpre a (by simp)
    simp only [List.cons_append, findFence, ha, Bool.false_eq_true, if_false]
    exact ih (fun l hl => hpre l (by simp [hl]))

theorem findFence_none (ls : List String) (h : ∀ l ∈ ls, isFence l = false) :
    findFence ls = none := by
  induction ls with
  | nil => rfl
  | cons a t ih =>
    have ha := h a (by simp)
    simp only [findFence, ha, Bool.false_eq_true, if_false]
    exact ih (fun l hl => h l (by simp [hl]))

theorem takeUntilClose_append (inner post : List String) (h : ∀ l ∈ inner, l ≠ "```") :
    takeUntilClose (inner ++ "```" :: post) = some inner := by
  induction inner with
  | nil => simp [takeUntilClose]
  | cons a t ih =>
    have ha := h a (by simp)
    simp only [List.cons_append, takeUntilClose, ha, if_false, List.append_eq]
    rw [ih (fun l hl => h l (by simp [hl]))]

theorem libTruthy_load (root : RootFS) :
    libTruthy (load_templates root) =
      (root.promptsExists && !root.parsedTemplates.isEmpty) := by
  unfold load_templates libTruthy TemplateLibrary.from_file_or_directory
  cases hp : root.promptsExists <;> simp

theorem pyOr_truthy (a b : Option TemplateLibrary) :
    libTruthy (pyOr a b) = (libTruthy a || libTruthy b) := by
  unfold pyOr
  cases h : libTruthy a <;> simp [h]

theorem runMain_reaches (e : Env) (library : TemplateLibrary)
    (hv : e.versionFlag = false) (hk : e.apiKey ≠ "")
    (hi : pyJoin " " e.instructionsArgs ≠ "")
    (hsel : selectLibrary e.configRoot e.pkgRoot = some library)
    (hne : library.templates.isEmpty = false) :
    runMain e = withLibrary e library (pyJoin " " e.instructionsArgs)
      [Event.mkdirParents e.configDir, Event.openDb (e.configDir ++ "/db.sqlite"),
        Event.loadAttempt] := by
  unfold runMain
  simp [hv, hk, hi, hsel, hne]

theorem withLibrary_ok (e : Env) (library : TemplateLibrary) (instructions : String)
    (ev : List Event) (sm um : Message)
    (hbm : buildMessages library (pyJoin "\n\n" (e.inputsOpt.getD [])) instructions =
      Except.ok (sm, um)) :
    withLibrary e library instructions ev = exchange e sm um ev := by
  unfold withLibrary
  simp only [hbm]

theorem exchange_apiError (e : Env) (sm um : Message) (ev : List Event)
    (h : e.api = Except.error ()) :
    exchange e sm um ev = ⟨ev ++ [Event.apiCall [sm, um]], Outcome.apiFailure⟩ := by
  unfold exchange
  rw [h]

theorem exchange_dbFail (e : Env) (sm um : Message) (ev : List Event) (resp : ApiResponse)
    (h : e.api = Except.ok resp) (hdb : e.dbWriteOk = false) :
    exchange e sm um ev = ⟨ev ++ [Event.apiCall [sm, um]], Outcome.dbFailure⟩ := by
  unfold exchange
  rw [h]
  simp [hdb]

theorem exchange_code (e : Env) (sm um : Message) (ev : List Event) (resp : ApiResponse)
    (cb : CodeBlock) (h : e.api = Except.ok resp) (hdb : e.dbWriteOk = true)
    (hc : (Message.from_message resp.role resp.content).code = some cb) :
    exchange e sm um ev =
      ⟨ev ++ [Event.apiCall [sm, um],
        Event.dbWrite (mkRecord e sm um (Message.from_message resp.role resp.content) resp.usage),
        Event.printCode cb e.lineNumbers], Outcome.codeShown cb⟩ := by
  unfold exchange
  rw [h]
  simp only [hc]
  simp [hdb, Message.from_message]

theorem exchange_noCode (e : Env) (sm um : Message) (ev : List Event) (resp : ApiResponse)
    (h : e.api = Except.ok resp) (hdb : e.dbWriteOk = true)
    (hc : (Message.from_message resp.role resp.content).code = none) :
    exchange e sm um ev =
      ⟨ev ++ [Event.apiCall [sm, um],
        Event.dbWrite (mkRecord e sm um (Message.from_message resp.role resp.content) resp.usage),
        Event.printOut (noCodeMsg resp.content)], Outcome.noCodeFound resp.content⟩ := by
  unfold exchange
  rw [h]
  simp only [hc]
  simp [hdb, Message.from_message]

theorem exchange_events (e : Env) (sm um : Message) (ev : List Event) :
    ∃ t, (exchange e sm um ev).events = ev ++ Event.apiCall [sm, um] :: t := by
  cases hapi : e.api with
  | error u =>
    cases u
    rw [exchange_apiError e sm um ev hapi]
    exact ⟨[], by simp⟩
  | ok resp =>
    cases hdb : e.dbWriteOk with
    | false =>
      rw [exchange_dbFail e sm um ev resp hapi hdb]
      exact ⟨[], by simp⟩
    | true =>
      cases hc : (Message.from_message resp.role resp.content).code with
      | none =>
        rw [exchange_noCode e sm um ev resp hapi hdb hc]
        exact ⟨[Event.dbWrite (mkRecord e sm um (Message.from_message resp.role resp.content)
          resp.usage), Event.printOut (noCodeMsg resp.content)], rfl⟩
      | some cb =>
        rw [exchange_code e sm um ev resp cb hapi hdb hc]
        exact ⟨[Event.dbWrite (mkRecord e sm um (Message.from_message resp.role resp.content)
          resp.usage), Event.printCode cb e.lineNumbers], rfl⟩

theorem buildUserMessage_input (library : TemplateLibrary) (input instructions : String)
    (t : Template) (um : Message) (hin : input ≠ "")
    (hf : library.find "coding/input" = some t)
    (hm : t.message [("code", input), ("instructions", instructions)] = Except.ok um) :
    buildUserMessage library input instructions = Except.ok um := by
  unfold buildUserMessage
  simp [hin, hf, hm]

theorem buildUserMessage_simple (library : TemplateLibrary) (input instructions : String)
    (t : Template) (um : Message) (hin : input = "")
    (hf : library.find "coding/simple" = some t)
    (hm : t.message [("instructions", instructions)] = Except.ok um) :
    buildUserMessage library input instructions = Except.ok um := by
  unfold buildUserMessage
  simp [hin, hf, hm]

theorem buildMessages_intro (library : TemplateLibrary) (input instructions : String)
    (um : Message) (ts : Template) (sm : Message)
    (hu : buildUserMessage library input instructions = Except.ok um)
    (hts : library.find "coding/system" = some ts)
    (hsm : ts.message [] = Except.ok sm) :
    buildMessages library input instructions = Except.ok (sm, um) := by
  unfold buildMessages
  simp only [hu, hts, hsm]

theorem buildMessages_elim (library : TemplateLibrary) (input instructions : String)
    (sm um : Message)
    (h : buildMessages library input instructions = Except.ok (sm, um)) :
    buildUserMessage library input instructions = Except.ok um ∧
    ∃ ts, library.find "coding/system" = some ts ∧ ts.message [] = Except.ok sm := by
  unfold buildMessages at h
  cases hu : buildUserMessage library input instructions with
  | error err => simp only [hu] at h; simp at h
  | ok um2 =>
    simp only [hu] at h
    cases hts : library.find "coding/system" with
    | none => simp only [hts] at h; simp at h
    | some ts =>
      simp only [hts] at h
      cases hsm : ts.message [] with
      | error err => simp only [hsm] at h; simp at h
      | ok sm2 =>
        simp only [hsm, Except.ok.injEq, Prod.mk.injEq] at h
        obtain ⟨h1, h2⟩ := h
        subst h1
        subst h2
        exact ⟨rfl, ts, rfl, hsm⟩

theorem sentMessages_runMain (e : Env) (msgs : List Message)
    (h : sentMessages (runMain e).events = some msgs) :
    ∃ library sm um,
      e.versionFlag = false ∧ e.apiKey ≠ "" ∧ pyJoin " " e.instructionsArgs ≠ "" ∧
      selectLibrary e.configRoot e.pkgRoot = some library ∧
      library.templates.isEmpty = false ∧
      buildMessages library (pyJoin "\n\n" (e.inputsOpt.getD []))
        (pyJoin " " e.instructionsArgs) = Except.ok (sm, um) ∧
      msgs = [sm, um] := by
  cases hv : e.versionFlag with
  | true => exfalso; unfold runMain at h; simp [hv, sentMessages] at h
  | false =>
    by_cases hk : e.apiKey = ""
    · exfalso; unfold runMain at h; simp [hv, hk, sentMessages] at h
    · by_cases hi : pyJoin " " e.instructionsArgs = ""
      · exfalso; unfold runMain at h; simp [hv, hk, hi, sentMessages] at h
      · cases hsel : selectLibrary e.configRoot e.pkgRoot with
        | none => exfalso; unfold runMain at h; simp [hv, hk, hi, hsel, sentMessages] at h
        | some library =>
          cases hne : library.templates.isEmpty with
          | true => exfalso; unfold runMain at h; simp [hv, hk, hi, hsel, hne, sentMessages] at h
          | false =>
            rw [runMain_reaches e library hv hk hi hsel hne] at h
            cases hbm : buildMessages library (pyJoin "\n\n" (e.inputsOpt.getD []))
                (pyJoin " " e.instructionsArgs) with
            | error err =>
              exfalso
              unfold withLibrary at h
              simp [hbm, sentMessages] at h
            | ok p =>
              rcases p with ⟨sm, um⟩
              rw [withLibrary_ok e library _ _ sm um hbm] at h
              obtain ⟨t, ht⟩ := exchange_events e sm um
                [Event.mkdirParents e.configDir, Event.openDb (e.configDir ++ "/db.sqlite"),
                  Event.loadAttempt]
              rw [ht] at h
              simp [sentMessages] at h
              exact ⟨library, sm, um, rfl, hk, hi, rfl, hne, hbm, h.symm⟩

theorem writtenRecords_apiError (e : Env) (h : e.api = Except.error ()) :
    writtenRecords (runMain e).events = [] := by
  cases hv : e.versionFlag with
  | true => unfold runMain; simp [hv, writtenRecords]
  | false =>
    by_cases hk : e.apiKey = ""
    · unfold runMain; simp [hv, hk, writtenRecords]
    · by_cases hi : pyJoin " " e.instructionsArgs = ""
      · unfold runMain; simp [hv, hk, hi, writtenRecords]
      · cases hsel : selectLibrary e.configRoot e.pkgRoot with
        | none => unfold runMain; simp [hv, hk, hi, hsel, writtenRecords]
        | some library =>
          cases hne : library.templates.isEmpty with
          | true => unfold runMain; simp [hv, hk, hi, hsel, hne, writtenRecords]
          | false =>
            rw [runMain_reaches e library hv hk hi hsel hne]
            cases hbm : buildMessages library (pyJoin "\n\n" (e.inputsOpt.getD []))
                (pyJoin " " e.instructionsArgs) with
            | error err =>
              unfold withLibrary
              simp [hbm, writtenRecords]
            | ok p =>
              rcases p with ⟨sm, um⟩
              rw [withLibrary_ok e library _ _ sm um hbm]
              rw [exchange_apiError e sm um _ h]
              simp [writtenRecords]

theorem runMain_noKey (e : Env) (hv : e.versionFlag = false) (hk : e.apiKey = "") :
    runMain e = ⟨[Event.mkdirParents e.configDir, Event.openDb (e.configDir ++ "/db.sqlite")],
      Outcome.usageError "OPENAI_API_KEY must be set."⟩ := by
  unfold runMain
  simp [hv, hk]

theorem runMain_noInstructions (e : Env) (hv : e.versionFlag = false) (hk : e.apiKey ≠ "")
    (hi : pyJoin " " e.instructionsArgs = "") :
    runMain e = ⟨[Event.mkdirParents e.configDir, Event.openDb (e.configDir ++ "/db.sqlite")],
      Outcome.usageError "Please provide some instructions."⟩ := by
  unfold runMain
  simp [hv, hk, hi]

theorem runMain_noLib (e : Env) (hv : e.versionFlag = false) (hk : e.apiKey ≠ "")
    (hi : pyJoin " " e.instructionsArgs ≠ "")
    (hsel : libTruthy (selectLibrary e.configRoot e.pkgRoot) = false) :
    runMain e = ⟨[Event.mkdirParents e.configDir, Event.openDb (e.configDir ++ "/db.sqlite"),
      Event.loadAttempt], Outcome.usageError "No templates found."⟩ := by
  unfold runMain
  cases hs : selectLibrary e.configRoot e.pkgRoot with
  | none => simp [hv, hk, hi, hs]
  | some library =>
    rw [hs] at hsel
    unfold libTruthy at hsel
    simp only [Bool.not_eq_false'] at hsel
    simp [hv, hk, hi, hs, hsel]

/-- C1: Template library loading tries the candidate roots in priority order
(the user config directory first, then the package-adjacent directory); the
library returned is the one fully loaded from the first root whose `prompts`
subdirectory yields templates, with no merging of templates across roots, and
if no root yields any templates the process fails with a "No templates found"
configuration error. -/
theorem c1_root_priority (e : Env)
    (hv : e.versionFlag = false) (hk : e.apiKey ≠ "")
    (hi : pyJoin " " e.instructionsArgs ≠ "") :
    (e.configRoot.promptsExists = true → e.configRoot.parsedTemplates ≠ [] →
      selectLibrary e.configRoot e.pkgRoot =
        some (TemplateLibrary.from_file_or_directory e.configRoot)) ∧
    ((e.configRoot.promptsExists = false ∨ e.configRoot.parsedTemplates = []) →
      e.pkgRoot.promptsExists = true → e.pkgRoot.parsedTemplates ≠ [] →
      selectLibrary e.configRoot e.pkgRoot =
        some (TemplateLibrary.from_file_or_directory e.pkgRoot)) ∧
    ((e.configRoot.promptsExists = false ∨ e.configRoot.parsedTemplates = []) →
      (e.pkgRoot.promptsExists = false ∨ e.pkgRoot.parsedTemplates = []) →
      runMain e = ⟨[Event.mkdirParents e.configDir, Event.openDb (e.configDir ++ "/db.sqlite"),
        Event.loadAttempt], Outcome.usageError "No templates found."⟩) := by
  refine ⟨?_, ?_, ?_⟩
  · intro h1 h2
    have ht : libTruthy (load_templates e.configRoot) = true := by
      rw [libTruthy_load, h1]
      simp [h2]
    unfold selectLibrary pyOr
    rw [ht]
    simp [load_templates, h1]
  · intro hcfg h1 h2
    have hf : libTruthy (load_templates e.configRoot) = false := by
      rw [libTruthy_load]
      rcases hcfg with hc | hc
      · rw [hc]; rfl
      · simp [hc]
    unfold selectLibrary pyOr
    rw [hf]
    simp [load_templates, h1]
  · intro hcfg hpkg
    apply runMain_noLib e hv hk hi
    unfold selectLibrary
    rw [pyOr_truthy, libTruthy_load, libTruthy_load]
    have hc : (e.configRoot.promptsExists && !e.configRoot.parsedTemplates.isEmpty) = false := by
      rcases hcfg with hc | hc
      · rw [hc]; rfl
      · simp [hc]
    have hp : (e.pkgRoot.promptsExists && !e.pkgRoot.parsedTemplates.isEmpty) = false := by
      rcases hpkg with hc | hc
      · rw [hc]; rfl
      · simp [hc]
    rw [hc, hp]
    rfl

theorem c1_witness :
    selectLibrary envBase.configRoot envBase.pkgRoot =
      some (TemplateLibrary.from_file_or_directory envBase.configRoot) :=
  (c1_root_priority envBase rfl (by decide) (by decide)).1 rfl (by decide)

/-- C2: For every invocation, the template used for the user message is
selected based on whether file input was supplied: when input is supplied the
`coding/input` template is rendered with both the `code` and `instructions`
substitutions, and when it is not, the `coding/simple` template is rendered
with only the `instructions` substitution; the rendered message is the user
message sent. -/
theorem c2_template_selection (e : Env) (library : TemplateLibrary)
    (hv : e.versionFlag = false) (hk : e.apiKey ≠ "")
    (hi : pyJoin " " e.instructionsArgs ≠ "")
    (hsel : selectLibrary e.configRoot e.pkgRoot = some library)
    (hne : library.templates.isEmpty = false) :
    (∀ tu ts sm um,
      pyJoin "\n\n" (e.inputsOpt.getD []) ≠ "" →
      library.find "coding/input" = some tu →
      tu.message [("code", pyJoin "\n\n" (e.inputsOpt.getD [])),
        ("instructions", pyJoin " " e.instructionsArgs)] = Except.ok um →
      library.find "coding/system" = some ts →
      ts.message [] = Except.ok sm →
      sentMessages (runMain e).events = some [sm, um]) ∧
    (∀ tu ts sm um,
      pyJoin "\n\n" (e.inputsOpt.getD []) = "" →
      library.find "coding/simple" = some tu →
      tu.message [("instructions", pyJoin " " e.instructionsArgs)] = Except.ok um →
      library.find "coding/system" = some ts →
      ts.message [] = Except.ok sm →
      sentMessages (runMain e).events = some [sm, um]) := by
  constructor
  · intro tu ts sm um h0 hfu hmu hfs hms
    rw [runMain_reaches e library hv hk hi hsel hne,
      withLibrary_ok e library _ _ sm um
        (buildMessages_intro library _ _ um ts sm
          (buildUserMessage_input library _ _ tu um h0 hfu hmu) hfs hms)]
    obtain ⟨t, ht⟩ := exchange_events e sm um
      [Event.mkdirParents e.configDir, Event.openDb (e.configDir ++ "/db.sqlite"),
        Event.loadAttempt]
    rw [ht]
    simp [sentMessages]
  · intro tu ts sm um h0 hfu hmu hfs hms
    rw [runMain_reaches e library hv hk hi hsel hne,
      withLibrary_ok e library _ _ sm um
        (buildMessages_intro library _ _ um ts sm
          (buildUserMessage_simple library _ _ tu um h0 hfu hmu) hfs hms)]
    obtain ⟨t, ht⟩ := exchange_events e sm um
      [Event.mkdirParents e.configDir, Event.openDb (e.configDir ++ "/db.sqlite"),
        Event.loadAttempt]
    rw [ht]
    simp [sentMessages]

theorem c2_witness :
    sentMessages (runMain envBase).events =
      some [⟨Role.system, "You are a coding assistant."⟩, ⟨Role.user, "Do: write hello"⟩] :=
  (c2_template_selection envBase libFull rfl (by decide) (by decide) (by decide) rfl).2
    tplSimple tplSystem ⟨Role.system, "You are a coding assistant."⟩
    ⟨Role.user, "Do: write hello"⟩ (by decide) (by decide) (by decide) (by decide) (by decide)

/-- C3: For every message content, code extraction returns the first fenced
code block's language tag (empty string if none was given) and the exact text
between the two fence markers (the fenced lines rejoined, i.e. with the
single trailing newline before the closing fence stripped); and for every
content with no fenced block anywhere, extraction returns absent rather than
raising an error. -/
theorem c3_code_extraction :
    (∀ (m : Message) (pre inner post : List String) (lang : String),
      splitLines m.content = pre ++ (("```" ++ lang) :: (inner ++ "```" :: post)) →
      (∀ l ∈ pre, isFence l = false) →
      (∀ l ∈ inner, l ≠ "```") →
      Message.code m = some ⟨lang, pyJoin "\n" inner⟩) ∧
    (∀ m : Message,
      (∀ l ∈ splitLines m.content, isFence l = false) →
      Message.code m = none) := by
  constructor
  · intro m pre inner post lang hsplit hpre hin
    unfold Message.code
    rw [hsplit, findFence_append pre _ hpre]
    simp only [findFence, isFence_open, if_true, langOf_open]
    rw [takeUntilClose_append inner post hin]
  · intro m h
    unfold Message.code
    rw [findFence_none _ h]

theorem c3_witness :
    Message.code ⟨Role.assistant, "Here:\n```python\nprint(1)\n```"⟩ =
      some ⟨"python", "print(1)"⟩ ∧
    Message.code ⟨Role.assistant, "no code here"⟩ = none := by
  constructor
  · exact c3_code_extraction.1 ⟨Role.assistant, "Here:\n```python\nprint(1)\n```"⟩
      ["Here:"] ["print(1)"] [] "python" (by decide) (by decide) (by decide)
  · exact c3_code_extraction.2 ⟨Role.assistant, "no code here"⟩ (by decide)

/-- C4: Whenever the assistant's reply contains no extractable code block, the
program prints the "No code found in message:" text followed by the reply
content and terminates with exit status 1, distinct from the exit status 0 of
the success-with-code path, with the extraction itself returning absent
rather than raising. -/
theorem c4_no_code_outcome (e : Env) (library : TemplateLibrary) (sm um : Message)
    (resp : ApiResponse)
    (hv : e.versionFlag = false) (hk : e.apiKey ≠ "")
    (hi : pyJoin " " e.instructionsArgs ≠ "")
    (hsel : selectLibrary e.configRoot e.pkgRoot = some library)
    (hne : library.templates.isEmpty = false)
    (hbm : buildMessages library (pyJoin "\n\n" (e.inputsOpt.getD []))
      (pyJoin " " e.instructionsArgs) = Except.ok (sm, um))
    (hapi : e.api = Except.ok resp)
    (hdb : e.dbWriteOk = true)
    (hcode : (Message.from_message resp.role resp.content).code = none) :
    (runMain e).outcome = Outcome.noCodeFound resp.content ∧
    Event.printOut (noCodeMsg resp.content) ∈ (runMain e).events ∧
    exitCode (runMain e).outcome = 1 ∧
    (∀ cb : CodeBlock, exitCode (Outcome.codeShown cb) = 0) := by
  rw [runMain_reaches e library hv hk hi hsel hne,
    withLibrary_ok e library _ _ sm um hbm,
    exchange_noCode e sm um _ resp hapi hdb hcode]
  refine ⟨rfl, ?_, rfl, fun cb => rfl⟩
  simp

theorem c4_witness :
    (runMain envNoCode).outcome = Outcome.noCodeFound "I cannot help." ∧
    Event.printOut (noCodeMsg "I cannot help.") ∈ (runMain envNoCode).events ∧
    exitCode (runMain envNoCode).outcome = 1 ∧
    (∀ cb : CodeBlock, exitCode (Outcome.codeShown cb) = 0) :=
  c4_no_code_outcome envNoCode libFull ⟨Role.system, "You are a coding assistant."⟩
    ⟨Role.user, "Do: write hello"⟩ respPlain rfl (by decide) (by decide) (by decide) rfl
    (by decide) rfl rfl (by decide)

/-- C5: Exactly one record is persisted after every completed exchange,
carrying the model name, temperature, max_tokens, the system and user message
texts as sent, the assistant message text as received, and the input/output
token counts exactly as supplied by the remote API; and if the remote call
never completes (raises), no record is persisted. -/
theorem c5_record_persistence (e : Env) (library : TemplateLibrary) (sm um : Message)
    (resp : ApiResponse)
    (hv : e.versionFlag = false) (hk : e.apiKey ≠ "")
    (hi : pyJoin " " e.instructionsArgs ≠ "")
    (hsel : selectLibrary e.configRoot e.pkgRoot = some library)
    (hne : library.templates.isEmpty = false)
    (hbm : buildMessages library (pyJoin "\n\n" (e.inputsOpt.getD []))
      (pyJoin " " e.instructionsArgs) = Except.ok (sm, um))
    (hapi : e.api = Except.ok resp)
    (hdb : e.dbWriteOk = true) :
    writtenRecords (runMain e).events =
      [⟨e.model, e.temperature, e.maxTokens, sm.content, um.content, resp.content,
        resp.usage.prompt_tokens, resp.usage.completion_tokens⟩] ∧
    (∀ e2 : Env, e2.api = Except.error () → writtenRecords (runMain e2).events = []) := by
  constructor
  · rw [runMain_reaches e library hv hk hi hsel hne,
      withLibrary_ok e library _ _ sm um hbm]
    cases hc : (Message.from_message resp.role resp.content).code with
    | none =>
      rw [exchange_noCode e sm um _ resp hapi hdb hc]
      simp [writtenRecords, mkRecord, Message.from_message]
    | some cb =>
      rw [exchange_code e sm um _ resp cb hapi hdb hc]
      simp [writtenRecords, mkRecord, Message.from_message]
  · exact writtenRecords_apiError

theorem c5_witness :
    writtenRecords (runMain envBase).events =
      [⟨"gpt-3.5-turbo", 1, 1000, "You are a coding assistant.", "Do: write hello",
        "Here:\n```python\nprint(1)\n```", 10, 5⟩] ∧
    writtenRecords (runMain envApiFail).events = [] := by
  have h := c5_record_persistence envBase libFull
    ⟨Role.system, "You are a coding assistant."⟩ ⟨Role.user, "Do: write hello"⟩ respCode
    rfl (by decide) (by decide) (by decide) rfl (by decide) rfl rfl
  exact ⟨h.1, h.2 envApiFail rfl⟩

/-- C6 (amended): if persisting the record fails after a successful remote
call, the failure propagates as the process outcome (non-zero exit), no
record is persisted and the extracted code is NOT shown: `main` performs the
database write before extraction and printing and has no handler, so a
storage failure hides the successful answer. -/
theorem c6_storage_failure (e : Env) (library : TemplateLibrary) (sm um : Message)
    (resp : ApiResponse)
    (hv : e.versionFlag = false) (hk : e.apiKey ≠ "")
    (hi : pyJoin " " e.instructionsArgs ≠ "")
    (hsel : selectLibrary e.configRoot e.pkgRoot = some library)
    (hne : library.templates.isEmpty = false)
    (hbm : buildMessages library (pyJoin "\n\n" (e.inputsOpt.getD []))
      (pyJoin " " e.instructionsArgs) = Except.ok (sm, um))
    (hapi : e.api = Except.ok resp)
    (hdb : e.dbWriteOk = false) :
    (runMain e).outcome = Outcome.dbFailure ∧
    exitCode (runMain e).outcome ≠ 0 ∧
    writtenRecords (runMain e).events = [] ∧
    (∀ cb ln, Event.printCode cb ln ∉ (runMain e).events) ∧
    (∀ s, Event.printOut s ∉ (runMain e).events) := by
  rw [runMain_reaches e library hv hk hi hsel hne,
    withLibrary_ok e library _ _ sm um hbm,
    exchange_dbFail e sm um _ resp hapi hdb]
  refine ⟨rfl, by simp [exitCode], by simp [writtenRecords], ?_, ?_⟩
  · intro cb ln h
    simp at h
  · intro s h
    simp at h

theorem c6_counterexample :
    envDbFail.api = Except.ok respCode ∧
    (Message.from_message respCode.role respCode.content).code = some ⟨"python", "print(1)"⟩ ∧
    envDbFail.dbWriteOk = false ∧
    (runMain envDbFail).outcome = Outcome.dbFailure ∧
    (∀ cb ln, Event.printCode cb ln ∉ (runMain envDbFail).events) := by
  refine ⟨rfl, by decide, rfl, by decide, ?_⟩
  intro cb ln h
  have hev : (runMain envDbFail).events =
      [Event.mkdirParents "/home/user/.llm_code", Event.openDb "/home/user/.llm_code/db.sqlite",
        Event.loadAttempt,
        Event.apiCall [⟨Role.system, "You are a coding assistant."⟩,
          ⟨Role.user, "Do: write hello"⟩]] := by decide
  rw [hev] at h
  simp at h

/-- C7: If the API credential is absent, the process fails with a
configuration error (non-zero exit) before any template load and before any
network call; likewise, empty joined instructions cause a configuration error
before any template load or network call. -/
theorem c7_config_errors (e : Env) (hv : e.versionFlag = false) :
    (e.apiKey = "" →
      runMain e = ⟨[Event.mkdirParents e.configDir, Event.openDb (e.configDir ++ "/db.sqlite")],
        Outcome.usageError "OPENAI_API_KEY must be set."⟩ ∧
      Event.loadAttempt ∉ (runMain e).events ∧
      (∀ ms, Event.apiCall ms ∉ (runMain e).events) ∧
      exitCode (runMain e).outcome ≠ 0) ∧
    (e.apiKey ≠ "" → pyJoin " " e.instructionsArgs = "" →
      runMain e = ⟨[Event.mkdirParents e.configDir, Event.openDb (e.configDir ++ "/db.sqlite")],
        Outcome.usageError "Please provide some instructions."⟩ ∧
      Event.loadAttempt ∉ (runMain e).events ∧
      (∀ ms, Event.apiCall ms ∉ (runMain e).events) ∧
      exitCode (runMain e).outcome ≠ 0) := by
  constructor
  · intro hk
    rw [runMain_noKey e hv hk]
    exact ⟨rfl, by simp, fun ms => by simp, by simp [exitCode]⟩
  · intro hk hi
    rw [runMain_noInstructions e hv hk hi]
    exact ⟨rfl, by simp, fun ms => by simp, by simp [exitCode]⟩

theorem c7_witness :
    runMain envNoKey =
      ⟨[Event.mkdirParents "/home/user/.llm_code", Event.openDb "/home/user/.llm_code/db.sqlite"],
        Outcome.usageError "OPENAI_API_KEY must be set."⟩ ∧
    Event.loadAttempt ∉ (runMain envNoKey).events ∧
    Event.apiCall [] ∉ (runMain envNoKey).events ∧
    exitCode (runMain envNoKey).outcome ≠ 0 := by
  have h := (c7_config_errors envNoKey rfl).1 rfl
  exact ⟨h.1, h.2.1, h.2.2.1 [], h.2.2.2⟩

theorem pyJoin_two_ne (f g : String) (rest : List String) :
    pyJoin "\n\n" (f :: g :: rest) ≠ "" := by
  intro h
  have hl := congrArg String.length h
  simp only [pyJoin, String.length_append] at hl
  have h2 : ("\n\n" : String).length = 2 := rfl
  have he : ("" : String).length = 0 := rfl
  rw [h2, he] at hl
  omega

/-- C8: Every request sent to the remote API contains exactly two messages in
order: first the `coding/system` template rendered with no substitutions,
then the rendered user message. -/
theorem c8_request_shape (e : Env) (msgs : List Message)
    (h : sentMessages (runMain e).events = some msgs) :
    ∃ library ts sm um,
      selectLibrary e.configRoot e.pkgRoot = some library ∧
      TemplateLibrary.find library "coding/system" = some ts ∧
      ts.message [] = Except.ok sm ∧
      buildUserMessage library (pyJoin "\n\n" (e.inputsOpt.getD []))
        (pyJoin " " e.instructionsArgs) = Except.ok um ∧
      msgs = [sm, um] := by
  obtain ⟨library, sm, um, _, _, _, hsel, _, hbm, hmsgs⟩ := sentMessages_runMain e msgs h
  obtain ⟨hu, ts, hts, hsm⟩ := buildMessages_elim library _ _ sm um hbm
  exact ⟨library, ts, sm, um, hsel, hts, hsm, hu, hmsgs⟩

theorem c8_witness :
    ∃ library ts sm um,
      selectLibrary envBase.configRoot envBase.pkgRoot = some library ∧
      TemplateLibrary.find library "coding/system" = some ts ∧
      ts.message [] = Except.ok sm ∧
      buildUserMessage library (pyJoin "\n\n" (envBase.inputsOpt.getD []))
        (pyJoin " " envBase.instructionsArgs) = Except.ok um ∧
      [(⟨Role.system, "You are a coding assistant."⟩ : Message),
        (⟨Role.user, "Do: write hello"⟩ : Message)] = [sm, um] :=
  c8_request_shape envBase
    [⟨Role.system, "You are a coding assistant."⟩, ⟨Role.user, "Do: write hello"⟩] (by decide)

/-- C9 (amended): when the input-files glob matches files, their contents are
concatenated joined by exactly one blank line (the separator `"\n\n"`) in
glob order to form the code substitution, and the `coding/simple` template is
used exactly when the joined string is empty; when every matched file is
empty that happens only when at most one file matched — with two or more
matched files the separators make the joined string non-empty, so the
`coding/input` template is used even though every matched file is empty. -/
theorem c9_input_join (e : Env) (library : TemplateLibrary) (files : List String)
    (hv : e.versionFlag = false) (hk : e.apiKey ≠ "")
    (hi : pyJoin " " e.instructionsArgs ≠ "")
    (hsel : selectLibrary e.configRoot e.pkgRoot = some library)
    (hne : library.templates.isEmpty = false)
    (hfiles : e.inputsOpt = some files) :
    (∀ tu ts sm um,
      pyJoin "\n\n" files ≠ "" →
      TemplateLibrary.find library "coding/input" = some tu →
      tu.message [("code", pyJoin "\n\n" files),
        ("instructions", pyJoin " " e.instructionsArgs)] = Except.ok um →
      TemplateLibrary.find library "coding/system" = some ts →
      ts.message [] = Except.ok sm →
      sentMessages (runMain e).events = some [sm, um]) ∧
    (∀ tu ts sm um,
      pyJoin "\n\n" files = "" →
      TemplateLibrary.find library "coding/simple" = some tu →
      tu.message [("instructions", pyJoin " " e.instructionsArgs)] = Except.ok um →
      TemplateLibrary.find library "coding/system" = some ts →
      ts.message [] = Except.ok sm →
      sentMessages (runMain e).events = some [sm, um]) ∧
    (2 ≤ files.length → pyJoin "\n\n" files ≠ "") ∧
    ((∀ f ∈ files, f = "") → files.length ≤ 1 → pyJoin "\n\n" files = "") := by
  have hget : e.inputsOpt.getD [] = files := by rw [hfiles]; rfl
  refine ⟨?_, ?_, ?_, ?_⟩
  · intro tu ts sm um h0 hfu hmu hfs hms
    rw [runMain_reaches e library hv hk hi hsel hne,
      withLibrary_ok e library _ _ sm um
        (buildMessages_intro library _ _ um ts sm
          (buildUserMessage_input library _ _ tu um (by rw [hget]; exact h0)
            hfu (by rw [hget]; exact hmu)) hfs hms)]
    obtain ⟨t, ht⟩ := exchange_events e sm um
      [Event.mkdirParents e.configDir, Event.openDb (e.configDir ++ "/db.sqlite"),
        Event.loadAttempt]
    rw [ht]
    simp [sentMessages]
  · intro tu ts sm um h0 hfu hmu hfs hms
    rw [runMain_reaches e library hv hk hi hsel hne,
      withLibrary_ok e library _ _ sm um
        (buildMessages_intro library _ _ um ts sm
          (buildUserMessage_simple library _ _ tu um (by rw [hget]; exact h0) hfu hmu) hfs hms)]
    obtain ⟨t, ht⟩ := exchange_events e sm um
      [Event.mkdirParents e.configDir, Event.openDb (e.configDir ++ "/db.sqlite"),
        Event.loadAttempt]
    rw [ht]
    simp [sentMessages]
  · intro h2
    cases files with
    | nil => exact absurd h2 (by simp)
    | cons f t =>
      cases t with
      | nil => exact absurd h2 (by simp)
      | cons g rest => exact pyJoin_two_ne f g rest
  · intro hall hlen
    cases files with
    | nil => rfl
    | cons f t =>
      cases t with
      | nil =>
        have hf := hall f (by simp)
        simp [pyJoin, hf]
      | cons g rest =>
        exfalso
        have hc : (f :: g :: rest).length = rest.length + 2 := by simp
        omega

theorem c9_witness :
    sentMessages (runMain envTwoEmpty).events =
      some [⟨Role.system, "You are a coding assistant."⟩,
        ⟨Role.user, "Code: \n\n Task: write hello"⟩] ∧
    pyJoin "\n\n" ["", ""] ≠ "" := by
  have h := c9_input_join envTwoEmpty libFull ["", ""] rfl (by decide) (by decide)
    (by decide) rfl rfl
  exact ⟨h.1 tplInput tplSystem ⟨Role.system, "You are a coding assistant."⟩
    ⟨Role.user, "Code: \n\n Task: write hello"⟩ (by decide) (by decide) (by decide)
    (by decide) (by decide), h.2.2.1 (by decide)⟩

theorem c9_counterexample :
    envTwoEmpty.inputsOpt = some ["", ""] ∧
    (∀ f ∈ (["", ""] : List String), f = "") ∧
    pyJoin "\n\n" ["", ""] ≠ "" ∧
    sentMessages (runMain envTwoEmpty).events =
      some [⟨Role.system, "You are a coding assistant."⟩,
        ⟨Role.user, "Code: \n\n Task: write hello"⟩] ∧
    tplSimple.message [("instructions", "write hello")] =
      Except.ok ⟨Role.user, "Do: write hello"⟩ ∧
    (⟨Role.user, "Code: \n\n Task: write hello"⟩ : Message) ≠
      ⟨Role.user, "Do: write hello"⟩ := by
  refine ⟨rfl, by decide, by decide, by decide, by decide, by decide⟩

/-- C10: On every invocation without the version flag, the first two side
effects are creating the configuration directory (with parents, tolerating
prior existence) and opening or creating the sqlite store at
`config_dir/db.sqlite`, before the credential, instructions and template
checks run — so they occur even when the invocation then aborts with a
configuration error. -/
theorem c10_initdb_first (e : Env) (hv : e.versionFlag = false) :
    (runMain e).events.take 2 =
      [Event.mkdirParents e.configDir, Event.openDb (e.configDir ++ "/db.sqlite")] := by
  by_cases hk : e.apiKey = ""
  · rw [runMain_noKey e hv hk]
    rfl
  · by_cases hi : pyJoin " " e.instructionsArgs = ""
    · rw [runMain_noInstructions e hv hk hi]
      rfl
    · cases hsel : selectLibrary e.configRoot e.pkgRoot with
      | none =>
        rw [runMain_noLib e hv hk hi (by rw [hsel]; rfl)]
        rfl
      | some library =>
        cases hne : library.templates.isEmpty with
        | true =>
          rw [runMain_noLib e hv hk hi (by rw [hsel]; simp [libTruthy, hne])]
          rfl
        | false =>
          rw [runMain_reaches e library hv hk hi hsel hne]
          unfold withLibrary
          cases hbm : buildMessages library (pyJoin "\n\n" (e.inputsOpt.getD []))
              (pyJoin " " e.instructionsArgs) with
          | error err => simp [hbm]
          | ok p =>
            rcases p with ⟨sm, um⟩
            simp only [hbm]
            obtain ⟨t, ht⟩ := exchange_events e sm um
              [Event.mkdirParents e.configDir, Event.openDb (e.configDir ++ "/db.sqlite"),
                Event.loadAttempt]
            rw [ht]
            simp

theorem c10_witness :
    (runMain envNoKey).events.take 2 =
      [Event.mkdirParents "/home/user/.llm_code", Event.openDb "/home/user/.llm_code/db.sqlite"] :=
  c10_initdb_first envNoKey rfl

theorem c6_witness :
    (runMain envDbFail).outcome = Outcome.dbFailure ∧
    exitCode (runMain envDbFail).outcome ≠ 0 ∧
    writtenRecords (runMain envDbFail).events = [] := by
  have h := c6_storage_failure envDbFail libFull ⟨Role.system, "You are a coding assistant."⟩
    ⟨Role.user, "Do: write hello"⟩ respCode rfl (by decide) (by decide) (by decide) rfl
    (by decide) rfl rfl
  exact ⟨h.1, h.2.1, h.2.2.1⟩
